import Mathlib

/-!
Verification of the nett connection wrapper (conn.go) against its
specification.  The Go code is shallowly embedded: errors become an
inductive type carrying the observable properties the code inspects
(identity with io.EOF, the inner message of a net.OpError, the result
of the Temporary method); the read loop, Send and the SendAsync task
body become functions turning the sequence of results delivered by the
underlying stream into the list of observable events they perform
(handler invocations, stream closure, wait-group operations); the
line-reading framing function becomes a function over the sequence of
single-byte read results; the handler slots become an explicit record
updated by the registration operations.
-/

namespace Nett

/-- Model of a Go error value as inspected by conn.go: the io.EOF
sentinel, a net.OpError (whose inner message and Temporary result are
recorded), some other error implementing net.Error (recording its
Temporary result), or a plain error. -/
inductive GoErr
  | eof
  | opError (innerMsg : String) (temporary : Bool)
  | netError (temporary : Bool) (msg : String)
  | basic (msg : String)
  deriving DecidableEq, Repr

/-- Whether the error is a net.Error whose Temporary method returns
true.  io.EOF and plain errors do not implement net.Error. -/
def isTemporaryNetError : GoErr → Bool
  | .eof => false
  | .opError _ temp => temp
  | .netError temp _ => temp
  | .basic _ => false

/-- Embedding of hideTempError (conn.go lines 186-196): nil stays nil,
a net.Error reporting Temporary() true is replaced by nil, every other
error is returned unchanged. -/
def hideTempError : Option GoErr → Option GoErr
  | none => none
  | some e => if isTemporaryNetError e then none else some e

/-- Embedding of isClosedConnErrr (conn.go lines 151-161): true for the
io.EOF value and for a net.OpError whose inner error message is the
closed-network-connection string; false otherwise. -/
def isClosedConnErrr : GoErr → Bool
  | .eof => true
  | .opError msg _ => msg = "use of closed network connection"
  | .netError _ _ => false
  | .basic _ => false

/-- Observable actions performed by the wrapper: wait-group increment
and decrement, closing the underlying stream, and invoking the data,
error, or closed handler. -/
inductive Event
  | wgAdd
  | wgDone
  | closeStream
  | dataEvt (data : List Nat)
  | errEvt (e : GoErr)
  | closedEvt
  deriving DecidableEq, Repr

/-- One result of the underlying single-byte read inside
ReadLineReader: the byte placed in the one-byte buffer together with
the error returned by Read. -/
abbrev ReadResult := Nat × Option GoErr

/-- The loop body of ReadLineReader (conn.go lines 23-37), recursing
over the successive read results with the accumulated buffer.  The
outer none means the stream was exhausted without the loop returning
(the real loop would block); otherwise the pair mirrors the Go return
value ([]byte, error): on a read error the accumulated bytes are
dropped and (nil, err) is returned, on a line feed the buffer including
the terminator is returned with a nil error. -/
def readLineLoop : List ReadResult → List Nat → Option (Option (List Nat) × Option GoErr)
  | [], _ => none
  | (_, some e) :: _, _ => some (none, some e)
  | (b, none) :: rest, buf =>
    if b = 10 then some (some (buf ++ [b]), none) else readLineLoop rest (buf ++ [b])

/-- Embedding of ReadLineReader: run the loop with an empty buffer. -/
def ReadLineReader (s : List ReadResult) : Option (Option (List Nat) × Option GoErr) :=
  readLineLoop s []

/-- One result of the framing function as consumed by the read loop:
the decoded bytes together with the returned error. -/
abbrev FrameResult := List Nat × Option GoErr

/-- Events performed by the read loop body (conn.go lines 134-148) on
the successive framing results: after hideTempError, a closed-connection
error ends the loop silently, any other error invokes the error handler
and ends the loop, and otherwise non-empty data is dispatched to the
data handler and the loop continues. -/
def runReadLoop : List FrameResult → List Event
  | [] => []
  | (data, e) :: rest =>
    match hideTempError e with
    | some err => if isClosedConnErrr err then [] else [Event.errEvt err]
    | none => (if data.length > 0 then [Event.dataEvt data] else []) ++ runReadLoop rest

/-- Whether the read loop exits on the given framing results (it exits
exactly when some result survives hideTempError; otherwise it keeps
waiting for the next frame). -/
def runReadStops : List FrameResult → Bool
  | [] => false
  | (_, e) :: rest =>
    match hideTempError e with
    | some _ => true
    | none => runReadStops rest

/-- Embedding of runRead (conn.go lines 127-149): the loop events
followed, when the loop exits, by the deferred cleanup in order: close
the stream, decrement the wait group, dispatch the closed
notification. -/
def runRead (results : List FrameResult) : List Event :=
  runReadLoop results ++
    (if runReadStops results then [Event.closeStream, Event.wgDone, Event.closedEvt] else [])

/-- Embedding of Send (conn.go lines 100-107) as a function of the
error returned by the underlying Write: the events Send performs and
the error it returns.  A nil or temporary write error yields no events
and a nil return; any other error closes the stream and is returned
unchanged. -/
def Send (writeErr : Option GoErr) : List Event × Option GoErr :=
  match hideTempError writeErr with
  | some err => ([Event.closeStream], some err)
  | none => ([], none)

/-- Embedding of the goroutine body spawned by SendAsync (conn.go lines
111-119): perform Send, route a surviving error to the error handler,
and always decrement the wait group on exit (the deferred Done). -/
def sendAsyncTask (writeErr : Option GoErr) : List Event :=
  (let s := Send writeErr
   match hideTempError s.2 with
   | some err => s.1 ++ [Event.errEvt err]
   | none => s.1) ++ [Event.wgDone]

/-- Embedding of SendAsync (conn.go lines 109-120): increment the wait
group, then run the spawned task. -/
def SendAsync (writeErr : Option GoErr) : List Event :=
  Event.wgAdd :: sendAsyncTask writeErr

/-- Embedding of Close (conn.go lines 122-125): close the underlying
stream and wait for the outstanding work; it performs no handler
invocation of its own. -/
def Close : List Event := [Event.closeStream]

/-- The events of a whole connection life as produced by Wrap (conn.go
lines 49-64): one wait-group increment followed by the spawned read
task. -/
def WrapEvents (results : List FrameResult) : List Event :=
  Event.wgAdd :: runRead results

/-- Embedding of the body of the notifyClose goroutine spawned by the
read task's deferred cleanup (conn.go line 131): it snapshots the
closed handler under the mutex and invokes it (conn.go lines 178-184),
performing no wait-group operation of any kind. -/
def notifyCloseTask : List Event := [Event.closedEvt]

/-- Data-handler value stored in a slot: the package no-op or a user
handler (identified by a tag).  A Go nil handler argument is modelled
by an Option wrapper around this type. -/
inductive DataHandler
  | nop
  | user (id : Nat)
  deriving DecidableEq, Repr

/-- Error-handler value stored in a slot. -/
inductive ErrHandler
  | nop
  | user (id : Nat)
  deriving DecidableEq, Repr

/-- Closed-handler value stored in a slot. -/
inductive ClosedHandler
  | nop
  | user (id : Nat)
  deriving DecidableEq, Repr

/-- The handler slots of the conn struct (conn.go lines 39-47); none
models a nil Go function value in a field. -/
structure ConnState where
  onData : Option DataHandler
  onErr : Option ErrHandler
  onClosed : Option ClosedHandler
  deriving DecidableEq, Repr

/-- Embedding of the slot initialisation in Wrap (conn.go lines 50-58):
each handler slot starts as the corresponding no-op. -/
def Wrap : ConnState :=
  { onData := some DataHandler.nop
    onErr := some ErrHandler.nop
    onClosed := some ClosedHandler.nop }

/-- Embedding of OnData (conn.go lines 69-78): a nil argument is
replaced by the no-op before being stored. -/
def OnData (c : ConnState) (handler : Option DataHandler) : ConnState :=
  { c with onData := match handler with
      | none => some DataHandler.nop
      | some h => some h }

/-- Embedding of OnErr (conn.go lines 79-88). -/
def OnErr (c : ConnState) (handler : Option ErrHandler) : ConnState :=
  { c with onErr := match handler with
      | none => some ErrHandler.nop
      | some h => some h }

/-- Embedding of OnClosed (conn.go lines 89-98). -/
def OnClosed (c : ConnState) (handler : Option ClosedHandler) : ConnState :=
  { c with onClosed := match handler with
      | none => some ClosedHandler.nop
      | some h => some h }

/-- A handler-registration call, possibly with a nil argument. -/
inductive RegOp
  | regData (h : Option DataHandler)
  | regErr (h : Option ErrHandler)
  | regClosed (h : Option ClosedHandler)

/-- Apply one registration call to the connection state. -/
def applyOp (c : ConnState) : RegOp → ConnState
  | .regData h => OnData c h
  | .regErr h => OnErr c h
  | .regClosed h => OnClosed c h

/-- Apply a sequence of registration calls in order. -/
def applyOps (c : ConnState) : List RegOp → ConnState
  | [] => c
  | op :: rest => applyOps (applyOp c op) rest

/-! Helper lemmas. -/

/-- An error surviving hideTempError is the original error and is not a
temporary net.Error. -/
theorem hideTempError_some_iff (w : Option GoErr) (e : GoErr) :
    hideTempError w = some e ↔ w = some e ∧ isTemporaryNetError e = false := by
  cases w with
  | none => simp [hideTempError]
  | some x =>
    simp only [hideTempError]
    by_cases hx : isTemporaryNetError x = true
    · simp [hx]
      intro h
      subst h
      simp [hx]
    · simp only [Bool.not_eq_true] at hx
      simp [hx]
      intro h
      subst h
      simpa using hx

/-- Every event emitted inside the read loop body is a data dispatch or
an error dispatch. -/
theorem runReadLoop_mem (results : List FrameResult) :
    ∀ ev ∈ runReadLoop results,
      (∃ d, ev = Event.dataEvt d) ∨ ∃ e, ev = Event.errEvt e := by
  induction results with
  | nil => simp [runReadLoop]
  | cons r rest ih =>
    intro ev h
    obtain ⟨data, e⟩ := r
    rw [runReadLoop] at h
    split at h
    · split at h
      · simp at h
      · simp at h
        subst h
        exact Or.inr ⟨_, rfl⟩
    · rcases List.mem_append.mp h with h | h
      · split at h
        · simp at h
          subst h
          exact Or.inl ⟨_, rfl⟩
        · simp at h
      · exact ih ev h

/-- The read loop body never dispatches the closed notification. -/
theorem runReadLoop_count_closedEvt (results : List FrameResult) :
    (runReadLoop results).count Event.closedEvt = 0 := by
  rw [List.count_eq_zero]
  intro h
  rcases runReadLoop_mem results _ h with ⟨d, hd⟩ | ⟨e, he⟩
  · simp at hd
  · simp at he

/-- The read loop body never decrements the wait group. -/
theorem runReadLoop_count_wgDone (results : List FrameResult) :
    (runReadLoop results).count Event.wgDone = 0 := by
  rw [List.count_eq_zero]
  intro h
  rcases runReadLoop_mem results _ h with ⟨d, hd⟩ | ⟨e, he⟩
  · simp at hd
  · simp at he

/-- The read loop body never increments the wait group. -/
theorem runReadLoop_count_wgAdd (results : List FrameResult) :
    (runReadLoop results).count Event.wgAdd = 0 := by
  rw [List.count_eq_zero]
  intro h
  rcases runReadLoop_mem results _ h with ⟨d, hd⟩ | ⟨e, he⟩
  · simp at hd
  · simp at he

/-- An error dispatched by the read loop body never carries a
closed-connection classified error. -/
theorem runReadLoop_errEvt_not_closed (results : List FrameResult) (e : GoErr)
    (h : Event.errEvt e ∈ runReadLoop results) : isClosedConnErrr e = false := by
  induction results with
  | nil => simp [runReadLoop] at h
  | cons r rest ih =>
    obtain ⟨data, er⟩ := r
    rw [runReadLoop] at h
    split at h
    · split at h
      · simp at h
      · rename_i hc
        simp only [Bool.not_eq_true] at hc
        simp at h
        subst h
        exact hc
    · rcases List.mem_append.mp h with h | h
      · split at h <;> simp at h
      · exact ih h

/-- Repeated Close calls dispatch no closed notification. -/
theorem close_calls_no_closedEvt (n : Nat) :
    ((List.replicate n Close).flatten).count Event.closedEvt = 0 := by
  induction n with
  | zero => rfl
  | succ m ih =>
    rw [List.replicate_succ, List.flatten_cons, List.count_append, ih]
    rfl

/-- Running the line loop over successful reads whose bytes contain a
line feed returns the accumulator extended by the bytes up to and
including the first line feed. -/
theorem readLineLoop_ok (bs : List Nat) (buf : List Nat) (h : 10 ∈ bs) :
    readLineLoop (bs.map fun x => (x, none)) buf =
      some (some (buf ++ (bs.takeWhile (fun x => x != 10) ++ [10])), none) := by
  induction bs generalizing buf with
  | nil => simp at h
  | cons a tl ih =>
    by_cases ha : a = 10
    · subst ha
      simp [readLineLoop, List.takeWhile_cons]
    · have htl : 10 ∈ tl := by
        rcases List.mem_cons.mp h with h1 | h1
        · exact absurd h1.symm ha
        · exact h1
      simp only [List.map_cons, readLineLoop]
      rw [if_neg ha, ih (buf ++ [a]) htl]
      have hb : (a != 10) = true := by simpa using ha
      simp [List.takeWhile_cons, hb, List.append_assoc]

/-- Running the line loop over a failing stream whose successful prefix
contains no line feed returns nil data and the read error, whatever the
accumulator holds. -/
theorem readLineLoop_err (good : List Nat) (b : Nat) (e : GoErr)
    (rest : List ReadResult) (buf : List Nat) (h : 10 ∉ good) :
    readLineLoop (good.map (fun x => (x, none)) ++ (b, some e) :: rest) buf =
      some (none, some e) := by
  induction good generalizing buf with
  | nil => simp [readLineLoop]
  | cons a tl ih =>
    have ha : a ≠ 10 := by
      intro hh
      exact h (by simp [hh])
    have htl : 10 ∉ tl := fun hh => h (List.mem_cons_of_mem _ hh)
    simp only [List.map_cons, List.cons_append, readLineLoop]
    rw [if_neg ha]
    exact ih _ htl

/-- The SendAsync task decrements the wait group exactly once and as
its final action, and never increments it. -/
theorem sendAsyncTask_counts (w : Option GoErr) :
    (sendAsyncTask w).count Event.wgDone = 1 ∧
    (sendAsyncTask w).getLast? = some Event.wgDone ∧
    (sendAsyncTask w).count Event.wgAdd = 0 := by
  rcases hw : hideTempError w with _ | e
  · have hs : Send w = ([], none) := by unfold Send; rw [hw]
    refine ⟨?_, ?_, ?_⟩ <;> simp [sendAsyncTask, hs, hideTempError]
  · have he : isTemporaryNetError e = false := ((hideTempError_some_iff w e).mp hw).2
    have hs : Send w = ([Event.closeStream], some e) := by unfold Send; rw [hw]
    refine ⟨?_, ?_, ?_⟩ <;>
      simp [sendAsyncTask, hs, hideTempError, he, List.count_append, List.count_cons]

/-- Applying registration calls preserves non-nil handler slots. -/
theorem applyOps_isSome (c : ConnState) (ops : List RegOp)
    (h1 : c.onData.isSome = true) (h2 : c.onErr.isSome = true)
    (h3 : c.onClosed.isSome = true) :
    (applyOps c ops).onData.isSome = true ∧
    (applyOps c ops).onErr.isSome = true ∧
    (applyOps c ops).onClosed.isSome = true := by
  induction ops generalizing c with
  | nil => exact ⟨h1, h2, h3⟩
  | cons op rest ih =>
    rcases op with hh | hh | hh
    · rcases hh with _ | f <;>
        exact ih _ (by simp [applyOp, OnData]) (by simpa [applyOp, OnData] using h2)
          (by simpa [applyOp, OnData] using h3)
    · rcases hh with _ | f <;>
        exact ih _ (by simpa [applyOp, OnErr] using h1) (by simp [applyOp, OnErr])
          (by simpa [applyOp, OnErr] using h3)
    · rcases hh with _ | f <;>
        exact ih _ (by simpa [applyOp, OnClosed] using h1)
          (by simpa [applyOp, OnClosed] using h2) (by simp [applyOp, OnClosed])

/-! Claim theorems. -/

/-- C1: the closed handler is dispatched exactly once per Connection.
Whenever the read loop exits, by any path, the connection trace (the
wait-group registration of Wrap, the whole read task, and arbitrarily
many further Close calls) contains exactly one closed notification, and
that notification is the final event of the read task, after all
read-loop activity has ceased. -/
theorem closed_notification_exactly_once (results : List FrameResult) (n : Nat)
    (h : runReadStops results = true) :
    (WrapEvents results ++ (List.replicate n Close).flatten).count Event.closedEvt = 1 ∧
    (runRead results).getLast? = some Event.closedEvt := by
  constructor
  · rw [List.count_append, close_calls_no_closedEvt]
    simp [WrapEvents, runRead, h, List.count_append, List.count_cons,
      runReadLoop_count_closedEvt]
  · unfold runRead
    rw [if_pos h,
      show [Event.closeStream, Event.wgDone, Event.closedEvt] =
        [Event.closeStream, Event.wgDone] ++ [Event.closedEvt] from rfl,
      ← List.append_assoc]
    exact List.getLast?_concat _

/-- C1 witness at a concrete end-of-stream run with two Close calls. -/
theorem closed_notification_exactly_once_witness :
    runReadStops [([], some GoErr.eof)] = true ∧
    ((WrapEvents [([], some GoErr.eof)] ++ (List.replicate 2 Close).flatten).count
        Event.closedEvt = 1 ∧
      (runRead [([], some GoErr.eof)]).getLast? = some Event.closedEvt) :=
  ⟨by decide, closed_notification_exactly_once [([], some GoErr.eof)] 2 (by decide)⟩

/-- C2: Send returns nil when the write succeeds; a transient write
error is suppressed, returning nil without closing the stream; any
non-transient write error closes the stream and is returned to the
caller unchanged. -/
theorem Send_result (t e : GoErr) (ht : isTemporaryNetError t = true)
    (he : isTemporaryNetError e = false) :
    Send none = ([], none) ∧ Send (some t) = ([], none) ∧
    Send (some e) = ([Event.closeStream], some e) := by
  refine ⟨rfl, ?_, ?_⟩ <;> simp [Send, hideTempError, ht, he]

/-- C2 witness at a concrete temporary error and a concrete plain
error. -/
theorem Send_result_witness :
    isTemporaryNetError (GoErr.netError true "t") = true ∧
    isTemporaryNetError (GoErr.basic "boom") = false ∧
    (Send none = ([], none) ∧ Send (some (GoErr.netError true "t")) = ([], none) ∧
      Send (some (GoErr.basic "boom")) = ([Event.closeStream], some (GoErr.basic "boom"))) :=
  ⟨rfl, rfl, Send_result (GoErr.netError true "t") (GoErr.basic "boom") rfl rfl⟩

/-- C3 counterexample: a non-transient closed-connection classified
write error is routed to the error handler by the SendAsync task (the
task trace contains the error-handler invocation carrying it), refuting
the claim that the error handler is never invoked with such an error on
the SendAsync path. -/
theorem sendAsync_surfaces_closed_error :
    isClosedConnErrr (GoErr.opError "use of closed network connection" false) = true ∧
    sendAsyncTask (some (GoErr.opError "use of closed network connection" false)) =
      [Event.closeStream,
        Event.errEvt (GoErr.opError "use of closed network connection" false),
        Event.wgDone] :=
  ⟨by decide, rfl⟩

/-- C3 amended: closed-connection classified errors never reach the
error handler through the read loop (which ends silently on them) or
through Send (which dispatches no error event at all); SendAsync,
however, routes a non-transient closed-connection write error to the
error handler like any other genuine error. -/
theorem closed_errors_never_reach_handler (results : List FrameResult)
    (e er cl : GoErr) (w : Option GoErr)
    (h1 : Event.errEvt e ∈ runRead results)
    (h2 : isTemporaryNetError cl = false) (h3 : isClosedConnErrr cl = true) :
    isClosedConnErrr e = false ∧
    Event.errEvt er ∉ (Send w).1 ∧
    Event.errEvt cl ∈ sendAsyncTask (some cl) := by
  refine ⟨?_, ?_, ?_⟩
  · unfold runRead at h1
    rcases List.mem_append.mp h1 with h | h
    · exact runReadLoop_errEvt_not_closed results e h
    · split at h <;> simp at h
  · rcases hw : hideTempError w with _ | x
    · have hs : Send w = ([], none) := by unfold Send; rw [hw]
      simp [hs]
    · have hs : Send w = ([Event.closeStream], some x) := by unfold Send; rw [hw]
      simp [hs]
  · have hcl : hideTempError (some cl) = some cl := by simp [hideTempError, h2]
    have hs : Send (some cl) = ([Event.closeStream], some cl) := by unfold Send; rw [hcl]
    simp [sendAsyncTask, hs, hcl]

/-- C3 amended witness at a concrete genuine read error, a concrete
write, and the concrete closed-connection error. -/
theorem closed_errors_never_reach_handler_witness :
    Event.errEvt (GoErr.basic "boom") ∈ runRead [([], some (GoErr.basic "boom"))] ∧
    isTemporaryNetError (GoErr.opError "use of closed network connection" false) = false ∧
    isClosedConnErrr (GoErr.opError "use of closed network connection" false) = true ∧
    (isClosedConnErrr (GoErr.basic "boom") = false ∧
      Event.errEvt (GoErr.basic "x") ∉ (Send none).1 ∧
      Event.errEvt (GoErr.opError "use of closed network connection" false) ∈
        sendAsyncTask (some (GoErr.opError "use of closed network connection" false))) :=
  ⟨by decide, by decide, by decide,
    closed_errors_never_reach_handler [([], some (GoErr.basic "boom"))]
      (GoErr.basic "boom") (GoErr.basic "x")
      (GoErr.opError "use of closed network connection" false) none
      (by decide) (by decide) (by decide)⟩

/-- C4 counterexample: when the framing function returns non-empty data
together with a transient error, the read loop does dispatch that data
to the data handler, refuting the claim that on a transient error no
data is dispatched for any value of data. -/
theorem transient_error_data_dispatched :
    isTemporaryNetError (GoErr.netError true "tmp") = true ∧
    runReadLoop [([65], some (GoErr.netError true "tmp"))] = [Event.dataEvt [65]] :=
  ⟨rfl, rfl⟩

/-- C4 amended: for every data value, a transient framing error is
treated exactly like a success carrying the same data: the loop does
not invoke the error handler for it and does not stop; the step
dispatches exactly the data when it is non-empty and nothing when it is
empty, then continues looping on the rest. -/
theorem transient_error_continues (data : List Nat) (e : GoErr)
    (rest : List FrameResult)
    (h : isTemporaryNetError e = true) :
    runReadLoop ((data, some e) :: rest) = runReadLoop ((data, none) :: rest) ∧
    runReadStops ((data, some e) :: rest) = runReadStops ((data, none) :: rest) ∧
    runReadLoop ((data, some e) :: rest) =
      (if data.length > 0 then [Event.dataEvt data] else []) ++ runReadLoop rest ∧
    runReadStops ((data, some e) :: rest) = runReadStops rest ∧
    runReadLoop (([], some e) :: rest) = runReadLoop rest := by
  refine ⟨?_, ?_, ?_, ?_, ?_⟩
  · rw [runReadLoop, runReadLoop]
    simp [hideTempError, h]
  · rw [runReadStops, runReadStops]
    simp [hideTempError, h]
  · rw [runReadLoop]
    simp [hideTempError, h]
  · rw [runReadStops]
    simp [hideTempError, h]
  · rw [runReadLoop]
    simp [hideTempError, h]

/-- C4 amended witness at a concrete transient error carrying one byte
of data. -/
theorem transient_error_continues_witness :
    isTemporaryNetError (GoErr.netError true "x") = true ∧
    (runReadLoop [([65], some (GoErr.netError true "x"))] = runReadLoop [([65], none)] ∧
      runReadStops [([65], some (GoErr.netError true "x"))] = runReadStops [([65], none)] ∧
      runReadLoop [([65], some (GoErr.netError true "x"))] =
        (if ([65] : List Nat).length > 0 then [Event.dataEvt [65]] else []) ++ runReadLoop [] ∧
      runReadStops [([65], some (GoErr.netError true "x"))] = runReadStops [] ∧
      runReadLoop [([], some (GoErr.netError true "x"))] = runReadLoop []) :=
  ⟨rfl, transient_error_continues [65] (GoErr.netError true "x") [] rfl⟩

/-- C5: over a stream whose single-byte reads all succeed and whose
bytes contain a line feed, ReadLineReader returns without error exactly
the prefix of the stream up to and including the first line feed; over
a stream whose read fails before any line feed is seen, it propagates
that read error. -/
theorem ReadLineReader_spec (bs good : List Nat) (b : Nat) (e : GoErr)
    (rest : List ReadResult) (h1 : 10 ∈ bs) (h2 : 10 ∉ good) :
    ReadLineReader (bs.map fun x => (x, none)) =
      some (some (bs.takeWhile (fun x => x != 10) ++ [10]), none) ∧
    ReadLineReader (good.map (fun x => (x, none)) ++ (b, some e) :: rest) =
      some (none, some e) := by
  constructor
  · simpa [ReadLineReader] using readLineLoop_ok bs [] h1
  · exact readLineLoop_err good b e rest [] h2

/-- C5 witness on the stream h i LF and on a stream failing after one
byte. -/
theorem ReadLineReader_spec_witness :
    (10 : Nat) ∈ [104, 105, 10] ∧ (10 : Nat) ∉ [104] ∧
    (ReadLineReader ([104, 105, 10].map fun x => (x, none)) =
        some (some ([104, 105, 10].takeWhile (fun x => x != 10) ++ [10]), none) ∧
      ReadLineReader ([104].map (fun x => (x, none)) ++ (104, some GoErr.eof) :: []) =
        some (none, some GoErr.eof)) :=
  ⟨by decide, by decide,
    ReadLineReader_spec [104, 105, 10] [104] 104 GoErr.eof [] (by decide) (by decide)⟩

/-- C6 counterexample: the notifyClose goroutine, spawned by the read
task's cleanup whenever the read loop exits (conn.go line 131), is a
background task started by the wrapper whose trace contains no
wait-group decrement (and no increment is ever registered for it), so a
spawned task does remain unaccounted for by the counter Close waits
on, refuting the claim for the quantifier over every spawned task. -/
theorem notifyClose_task_no_decrement :
    notifyCloseTask = [Event.closedEvt] ∧
    notifyCloseTask.count Event.wgDone = 0 ∧
    notifyCloseTask.count Event.wgAdd = 0 :=
  ⟨rfl, rfl, rfl⟩

/-- C6 amended: the read task registered by Wrap and each task spawned
by SendAsync decrement the shared outstanding-work counter exactly once
before exiting, on every exit path, matching the one increment
registered at spawn; the one further goroutine the wrapper starts, the
notifyClose goroutine dispatching the closed notification (spawned by
the read task's cleanup after its own decrement), is not tracked by the
counter: it performs no decrement and no increment is registered for
it, so Close does not wait for it. -/
theorem tasks_account_work (results : List FrameResult) (w : Option GoErr)
    (h : runReadStops results = true) :
    (runRead results).count Event.wgDone = 1 ∧
    (sendAsyncTask w).count Event.wgDone = 1 ∧
    (sendAsyncTask w).getLast? = some Event.wgDone ∧
    (WrapEvents results).count Event.wgAdd = (runRead results).count Event.wgDone ∧
    (SendAsync w).count Event.wgAdd = (sendAsyncTask w).count Event.wgDone ∧
    runRead results =
      runReadLoop results ++ [Event.closeStream, Event.wgDone] ++ notifyCloseTask ∧
    notifyCloseTask.count Event.wgDone = 0 ∧
    notifyCloseTask.count Event.wgAdd = 0 := by
  obtain ⟨d1, d2, d3⟩ := sendAsyncTask_counts w
  have hr : (runRead results).count Event.wgDone = 1 := by
    simp [runRead, h, List.count_append, runReadLoop_count_wgDone, List.count_cons]
  have ha : (runRead results).count Event.wgAdd = 0 := by
    simp [runRead, h, List.count_append, runReadLoop_count_wgAdd, List.count_cons]
  refine ⟨hr, d1, d2, ?_, ?_, ?_, rfl, rfl⟩
  · simp [WrapEvents, List.count_cons, ha, hr]
  · simp [SendAsync, List.count_cons, d3, d1]
  · simp [runRead, h, notifyCloseTask]

/-- C6 amended witness at a concrete end-of-stream run and a concrete
failing asynchronous send. -/
theorem tasks_account_work_witness :
    runReadStops [([], some GoErr.eof)] = true ∧
    ((runRead [([], some GoErr.eof)]).count Event.wgDone = 1 ∧
      (sendAsyncTask (some (GoErr.basic "boom"))).count Event.wgDone = 1 ∧
      (sendAsyncTask (some (GoErr.basic "boom"))).getLast? = some Event.wgDone ∧
      (WrapEvents [([], some GoErr.eof)]).count Event.wgAdd =
        (runRead [([], some GoErr.eof)]).count Event.wgDone ∧
      (SendAsync (some (GoErr.basic "boom"))).count Event.wgAdd =
        (sendAsyncTask (some (GoErr.basic "boom"))).count Event.wgDone ∧
      runRead [([], some GoErr.eof)] =
        runReadLoop [([], some GoErr.eof)] ++ [Event.closeStream, Event.wgDone] ++
          notifyCloseTask ∧
      notifyCloseTask.count Event.wgDone = 0 ∧
      notifyCloseTask.count Event.wgAdd = 0) :=
  ⟨by decide, tasks_account_work [([], some GoErr.eof)] (some (GoErr.basic "boom"))
    (by decide)⟩

/-- C7: after construction and after any sequence of handler
registrations with arbitrary arguments (including nil ones), all three
handler slots hold a non-nil function, and registering a nil handler
stores the corresponding no-op, so no nil handler is ever invoked. -/
theorem handler_slots_never_nil (ops : List RegOp) :
    ((applyOps Wrap ops).onData).isSome = true ∧
    ((applyOps Wrap ops).onErr).isSome = true ∧
    ((applyOps Wrap ops).onClosed).isSome = true ∧
    (OnData (applyOps Wrap ops) none).onData = some DataHandler.nop ∧
    (OnErr (applyOps Wrap ops) none).onErr = some ErrHandler.nop ∧
    (OnClosed (applyOps Wrap ops) none).onClosed = some ClosedHandler.nop := by
  obtain ⟨a, b, c⟩ := applyOps_isSome Wrap ops rfl rfl rfl
  exact ⟨a, b, c, rfl, rfl, rfl⟩

/-- C8: on a successful framing result the read loop continues looping;
empty data is not dispatched, and non-empty data is dispatched exactly
once with exactly that content. -/
theorem success_dispatch (data : List Nat) (rest : List FrameResult)
    (hd : data ≠ []) :
    runReadLoop (([], none) :: rest) = runReadLoop rest ∧
    runReadStops (([], none) :: rest) = runReadStops rest ∧
    runReadLoop ((data, none) :: rest) = Event.dataEvt data :: runReadLoop rest ∧
    runReadStops ((data, none) :: rest) = runReadStops rest := by
  have hl : 0 < data.length := List.length_pos.mpr hd
  refine ⟨?_, ?_, ?_, ?_⟩
  · rw [runReadLoop]
    simp [hideTempError]
  · rw [runReadStops]
    simp [hideTempError]
  · rw [runReadLoop]
    simp [hideTempError, hl]
  · rw [runReadStops]
    simp [hideTempError]

/-- C8 witness at a concrete one-byte message. -/
theorem success_dispatch_witness :
    ([1] : List Nat) ≠ [] ∧
    (runReadLoop (([], none) :: []) = runReadLoop [] ∧
      runReadStops (([], none) :: []) = runReadStops [] ∧
      runReadLoop (([1], none) :: []) = Event.dataEvt [1] :: runReadLoop [] ∧
      runReadStops (([1], none) :: []) = runReadStops []) :=
  ⟨by decide, success_dispatch [1] [] (by decide)⟩

/-- C9: when a single-byte read inside ReadLineReader fails, the
function returns nil data together with the error: all bytes
accumulated before the failure are discarded, and the result does not
depend on the byte the failing read may have delivered (the same result
arises with no accumulated prefix, a different delivered byte, and a
different remaining stream). -/
theorem ReadLineReader_error_discards (good : List Nat) (b b2 : Nat) (e : GoErr)
    (rest rest2 : List ReadResult) (h : 10 ∉ good) :
    ReadLineReader (good.map (fun x => (x, none)) ++ (b, some e) :: rest) =
      some (none, some e) ∧
    ReadLineReader (good.map (fun x => (x, none)) ++ (b, some e) :: rest) =
      ReadLineReader ((b2, some e) :: rest2) := by
  have hone := readLineLoop_err good b e rest [] h
  have htwo := readLineLoop_err [] b2 e rest2 [] (by simp)
  exact ⟨hone, hone.trans htwo.symm⟩

/-- C9 witness with one accumulated byte before a failing read. -/
theorem ReadLineReader_error_discards_witness :
    (10 : Nat) ∉ [104] ∧
    (ReadLineReader ([104].map (fun x => (x, none)) ++ (7, some (GoErr.basic "READ")) :: []) =
        some (none, some (GoErr.basic "READ")) ∧
      ReadLineReader ([104].map (fun x => (x, none)) ++ (7, some (GoErr.basic "READ")) :: []) =
        ReadLineReader ((9, some (GoErr.basic "READ")) :: [(10, none)])) :=
  ⟨by decide,
    ReadLineReader_error_discards [104] 7 9 (GoErr.basic "READ") [] [(10, none)] (by decide)⟩

/-- C10: transient classification takes precedence over closed
classification: for an error that is both a temporary net.Error and
closed-connection classified, hideTempError suppresses it first, so the
read loop continues exactly as on a success carrying the same data
instead of stopping, and Send neither closes the stream nor returns an
error. -/
theorem transient_takes_precedence (e : GoErr) (data : List Nat)
    (rest : List FrameResult)
    (h1 : isTemporaryNetError e = true) (h2 : isClosedConnErrr e = true) :
    runReadStops ((data, some e) :: rest) = runReadStops rest ∧
    runReadLoop ((data, some e) :: rest) =
      (if data.length > 0 then [Event.dataEvt data] else []) ++ runReadLoop rest ∧
    Send (some e) = ([], none) := by
  refine ⟨?_, ?_, ?_⟩
  · rw [runReadStops]
    simp [hideTempError, h1]
  · rw [runReadLoop]
    simp [hideTempError, h1]
  · simp [Send, hideTempError, h1]

/-- C10 witness at a concrete error that is both temporary and
closed-connection classified. -/
theorem transient_takes_precedence_witness :
    isTemporaryNetError (GoErr.opError "use of closed network connection" true) = true ∧
    isClosedConnErrr (GoErr.opError "use of closed network connection" true) = true ∧
    (runReadStops (([66], some (GoErr.opError "use of closed network connection" true)) :: []) =
        runReadStops [] ∧
      runReadLoop (([66], some (GoErr.opError "use of closed network connection" true)) :: []) =
        (if ([66] : List Nat).length > 0 then [Event.dataEvt [66]] else []) ++ runReadLoop [] ∧
      Send (some (GoErr.opError "use of closed network connection" true)) = ([], none)) :=
  ⟨by decide, by decide,
    transient_takes_precedence (GoErr.opError "use of closed network connection" true)
      [66] [] (by decide) (by decide)⟩

end Nett
